import Mathlib

/-!
Verification of the snmalloc-rs allocator facade (`src/lib.rs`).

Shallow embedding conventions:
* Machine addresses (`*mut u8`) are naturals; `0` is the null pointer.
* `usize` arithmetic never overflows in the modelled code paths; layout
  construction checks the Rust `Layout::from_size_align` bound against
  `isize::MAX` explicitly.
* The opaque snmalloc backend (`snmalloc_sys`) is a structure of abstract
  functions giving the return value of each primitive; every facade
  operation additionally returns the list of backend calls it performs,
  so that "delegates to the backend" / "no backend call" statements are
  expressible.
* The address of `static ZST_SENTINEL : ZstSentinel` (with
  `#[repr(align(16))]`) is an abstract natural constrained exactly by
  what Rust guarantees for it: it is non-null and 16-aligned
  (`ZstSentinel.valid`). Facade operations take it as a parameter.
-/

/-- `usize::MAX` on a 64-bit target. -/
def USIZE_MAX : Nat := 18446744073709551615

/-- `isize::MAX` on a 64-bit target. -/
def ISIZE_MAX : Nat := 9223372036854775807

/-- `usize::is_power_of_two`. -/
def isPow2 (n : Nat) : Bool := n != 0 && (n &&& (n - 1)) == 0

/-- A `core::alloc::Layout`: requested size and alignment in bytes. -/
structure Layout where
  size : Nat
  align : Nat
deriving DecidableEq, Repr

/-- The invariant Rust maintains for any constructed `Layout`: the
alignment is a power of two and the size respects the `isize::MAX`
rounding bound. -/
def Layout.isValid (l : Layout) : Prop :=
  isPow2 l.align = true ∧ l.size ≤ ISIZE_MAX - (l.align - 1)

instance (l : Layout) : Decidable l.isValid := by
  unfold Layout.isValid; infer_instance

/-- `Layout::from_size_align(size, align)`, with `Err` as `none`:
succeeds iff `align` is a power of two and `size` does not exceed
`isize::MAX - (align - 1)`. -/
def Layout.from_size_align (size align : Nat) : Option Layout :=
  if isPow2 align = true ∧ size ≤ ISIZE_MAX - (align - 1) then
    some ⟨size, align⟩
  else
    none

/-- One call to a backend (`snmalloc_sys`) primitive, with its arguments. -/
inductive BackendCall where
  | alloc (align size : Nat)
  | allocZeroed (align size : Nat)
  | dealloc (ptr align size : Nat)
  | realloc (ptr align oldSize newSize : Nat)
  | usableSize (ptr : Nat)
deriving DecidableEq, Repr

/-- The opaque backend: return values of the `snmalloc_sys` primitives
(`0` models a null return). `sn_rust_dealloc` returns nothing, so it has
no field; its invocation is visible only in the call trace. -/
structure Backend where
  sn_rust_alloc : Nat → Nat → Nat
  sn_rust_alloc_zeroed : Nat → Nat → Nat
  sn_rust_realloc : Nat → Nat → Nat → Nat → Nat
  sn_rust_usable_size : Nat → Nat

/-- `NonNull::new`: `none` on the null pointer, `some` otherwise. -/
def nonNullNew (p : Nat) : Option Nat :=
  if p = 0 then none else some p

/-- `SnMalloc::handle_zst`: the address of the static sentinel. -/
def handle_zst (sentinel : Nat) : Nat := sentinel

/-- The guarantee Rust gives for the address of
`static ZST_SENTINEL : ZstSentinel` where `ZstSentinel` is
`#[repr(align(16))]`: non-null and aligned to 16 bytes. -/
def ZstSentinel.valid (addr : Nat) : Prop := addr ≠ 0 ∧ addr % 16 = 0

instance (addr : Nat) : Decidable (ZstSentinel.valid addr) := by
  unfold ZstSentinel.valid; infer_instance

/-- `SnMalloc::safe_alloc`: the sentinel for a zero-size layout,
otherwise `NonNull::new` of the backend `sn_rust_alloc` result. -/
def safe_alloc (b : Backend) (sentinel : Nat) (layout : Layout) :
    Option Nat × List BackendCall :=
  match layout.size with
  | 0 => (some (handle_zst sentinel), [])
  | size =>
      (nonNullNew (b.sn_rust_alloc layout.align size),
       [BackendCall.alloc layout.align size])

/-- `SnMalloc::safe_alloc_zeroed`: same split as `safe_alloc`, with the
backend `sn_rust_alloc_zeroed` on the non-zero path. -/
def safe_alloc_zeroed (b : Backend) (sentinel : Nat) (layout : Layout) :
    Option Nat × List BackendCall :=
  match layout.size with
  | 0 => (some (handle_zst sentinel), [])
  | size =>
      (nonNullNew (b.sn_rust_alloc_zeroed layout.align size),
       [BackendCall.allocZeroed layout.align size])

/-- `SnMalloc::safe_dealloc`: calls backend `sn_rust_dealloc` only for a
non-null pointer and a positive layout size; otherwise a no-op. The
result is the backend call trace. -/
def safe_dealloc (ptr : Nat) (layout : Layout) : List BackendCall :=
  if ptr ≠ 0 ∧ 0 < layout.size then
    [BackendCall.dealloc ptr layout.align layout.size]
  else
    []

/-- `SnMalloc::safe_realloc`: the four-way case split on
`(layout.size, new_size)` from the source; the `(0, _)` arm builds a
fresh layout with `Layout::from_size_align(new_size, layout.align()).ok()?`
and allocates with it. -/
def safe_realloc (b : Backend) (sentinel : Nat) (ptr : Nat)
    (layout : Layout) (new_size : Nat) : Option Nat × List BackendCall :=
  match layout.size, new_size with
  | 0, 0 => (some (handle_zst sentinel), [])
  | 0, _ =>
      match Layout.from_size_align new_size layout.align with
      | none => (none, [])
      | some l => safe_alloc b sentinel l
  | _, 0 => (none, safe_dealloc ptr layout)
  | _, _ =>
      (nonNullNew (b.sn_rust_realloc ptr layout.align layout.size new_size),
       [BackendCall.realloc ptr layout.align layout.size new_size])

/-- `SnMalloc::alloc_aligned`: textually the same body as `safe_alloc`
in the source. -/
def alloc_aligned (b : Backend) (sentinel : Nat) (layout : Layout) :
    Option Nat × List BackendCall :=
  match layout.size with
  | 0 => (some (handle_zst sentinel), [])
  | size =>
      (nonNullNew (b.sn_rust_alloc layout.align size),
       [BackendCall.alloc layout.align size])

/-- `ptr::is_null` on our address model. -/
def ptrIsNull (p : Nat) : Bool := p == 0

/-- `SnMalloc::usable_size`: `None` for the null pointer, otherwise the
backend `sn_rust_usable_size` answer. -/
def usable_size (b : Backend) (ptr : Nat) : Option Nat × List BackendCall :=
  match ptrIsNull ptr with
  | true => (none, [])
  | false => (some (b.sn_rust_usable_size ptr), [BackendCall.usableSize ptr])

/-- `<SnMalloc as GlobalAlloc>::alloc`:
`safe_alloc(layout).map_or(null_mut(), as_ptr)`; `as_ptr` is the
identity on our bare-natural addresses, so `map_or` is `Option.getD 0`. -/
def SnMalloc.alloc (b : Backend) (sentinel : Nat) (layout : Layout) :
    Nat × List BackendCall :=
  let r := safe_alloc b sentinel layout
  (r.fst.getD 0, r.snd)

/-- `<SnMalloc as GlobalAlloc>::alloc_zeroed`. -/
def SnMalloc.alloc_zeroed (b : Backend) (sentinel : Nat) (layout : Layout) :
    Nat × List BackendCall :=
  let r := safe_alloc_zeroed b sentinel layout
  (r.fst.getD 0, r.snd)

/-- `<SnMalloc as GlobalAlloc>::dealloc`: delegates to `safe_dealloc`. -/
def SnMalloc.dealloc (ptr : Nat) (layout : Layout) : List BackendCall :=
  safe_dealloc ptr layout

/-- `<SnMalloc as GlobalAlloc>::realloc`. -/
def SnMalloc.realloc (b : Backend) (sentinel : Nat) (ptr : Nat)
    (layout : Layout) (new_size : Nat) : Nat × List BackendCall :=
  let r := safe_realloc b sentinel ptr layout new_size
  (r.fst.getD 0, r.snd)

/-- A concrete backend used to instantiate witnesses: every primitive
returns a fixed non-null address or size. -/
def testBackend : Backend where
  sn_rust_alloc := fun _ size => 1024 + size
  sn_rust_alloc_zeroed := fun _ size => 2048 + size
  sn_rust_realloc := fun p _ _ _ => p + 4096
  sn_rust_usable_size := fun _ => 64

/-- Claim C1: for every layout with size 0, `safe_alloc`,
`safe_alloc_zeroed`, and `safe_realloc` with both old and new size 0
return the same fixed non-null sentinel address on every call, with an
empty backend call trace. -/
theorem claim_C1 (b : Backend) (s : Nat) (hs : ZstSentinel.valid s)
    (l : Layout) (hl : l.size = 0) (ptr : Nat) :
    safe_alloc b s l = (some s, []) ∧
    safe_alloc_zeroed b s l = (some s, []) ∧
    safe_realloc b s ptr l 0 = (some s, []) ∧
    s ≠ 0 := by
  refine ⟨?_, ?_, ?_, hs.1⟩ <;>
    simp [safe_alloc, safe_alloc_zeroed, safe_realloc, handle_zst, hl]

/-- Witness for C1 at sentinel 16, layout `{size := 0, align := 4}`,
pointer 5, and the concrete test backend. -/
theorem claim_C1_witness :
    ZstSentinel.valid 16 ∧
    (safe_alloc testBackend 16 ⟨0, 4⟩ = (some 16, []) ∧
     safe_alloc_zeroed testBackend 16 ⟨0, 4⟩ = (some 16, []) ∧
     safe_realloc testBackend 16 5 ⟨0, 4⟩ 0 = (some 16, []) ∧
     (16 : Nat) ≠ 0) :=
  ⟨by decide, claim_C1 testBackend 16 (by decide) ⟨0, 4⟩ rfl 5⟩

/-- Claim C2 counterexample: the code guarantees the sentinel only
non-nullness and 16-alignment, and under exactly that guarantee a valid
size-0 layout with alignment 32 can receive an address (here 16) that is
not suitably aligned for the request. -/
theorem claim_C2_counterexample :
    ZstSentinel.valid 16 ∧
    Layout.isValid ⟨0, 32⟩ ∧
    (safe_alloc testBackend 16 ⟨0, 32⟩).fst = some 16 ∧
    ¬ (16 % 32 = 0) := by
  refine ⟨by decide, ⟨by decide, Nat.zero_le _⟩, by decide, by decide⟩

/-- Claim C2 (amended): for every layout with size 0 whose alignment
divides 16, the address `safe_alloc` returns is the sentinel, non-null,
and suitably aligned for the requested alignment; the sentinel itself is
non-zero with alignment at least 16. -/
theorem claim_C2 (b : Backend) (s : Nat) (hs : ZstSentinel.valid s)
    (l : Layout) (hl : l.size = 0) (ha : l.align ∣ 16) :
    (safe_alloc b s l).fst = some s ∧
    s ≠ 0 ∧ s % 16 = 0 ∧ s % l.align = 0 := by
  have h16 : (16 : Nat) ∣ s := Nat.dvd_iff_mod_eq_zero.mpr hs.2
  have halign : l.align ∣ s := ha.trans h16
  refine ⟨?_, hs.1, hs.2, Nat.dvd_iff_mod_eq_zero.mp halign⟩
  simp [safe_alloc, handle_zst, hl]

/-- Witness for C2 at sentinel 16 and layout `{size := 0, align := 8}`. -/
theorem claim_C2_witness :
    ZstSentinel.valid 16 ∧ (8 : Nat) ∣ 16 ∧
    ((safe_alloc testBackend 16 ⟨0, 8⟩).fst = some 16 ∧
     (16 : Nat) ≠ 0 ∧ 16 % 16 = 0 ∧ (16 : Nat) % 8 = 0) :=
  ⟨by decide, by decide,
   claim_C2 testBackend 16 (by decide) ⟨0, 8⟩ rfl (by decide)⟩

/-- Claim C3: for every old layout with size 0 and every `new_size ≠ 0`,
`safe_realloc` returns exactly what `safe_alloc` returns on the layout
built from `new_size` and the old alignment; when that layout cannot be
constructed it returns `none` with no backend call. -/
theorem claim_C3 (b : Backend) (s ptr new_size : Nat) (l : Layout)
    (hl : l.size = 0) (hn : new_size ≠ 0) :
    (∀ l2, Layout.from_size_align new_size l.align = some l2 →
        safe_realloc b s ptr l new_size = safe_alloc b s l2) ∧
    (Layout.from_size_align new_size l.align = none →
        safe_realloc b s ptr l new_size = (none, [])) := by
  obtain ⟨ns, rfl⟩ := Nat.exists_eq_succ_of_ne_zero hn
  constructor
  · intro l2 h2
    simp [safe_realloc, hl, h2]
  · intro h2
    simp [safe_realloc, hl, h2]

/-- Witness for C3 at old layout `{size := 0, align := 8}` and
`new_size = 16`, where the constructed layout is `{size := 16, align := 8}`. -/
theorem claim_C3_witness :
    Layout.from_size_align 16 8 = some ⟨16, 8⟩ ∧
    safe_realloc testBackend 16 5 ⟨0, 8⟩ 16 = safe_alloc testBackend 16 ⟨16, 8⟩ := by
  have h : Layout.from_size_align 16 8 = some ⟨16, 8⟩ := by decide
  exact ⟨h, (claim_C3 testBackend 16 5 16 ⟨0, 8⟩ rfl (by decide)).1 ⟨16, 8⟩ h⟩

/-- Claim C4: for every old layout with nonzero size and `new_size = 0`,
`safe_realloc` performs exactly the backend calls of
`safe_dealloc ptr layout` and returns `none`. -/
theorem claim_C4 (b : Backend) (s ptr : Nat) (l : Layout)
    (hl : l.size ≠ 0) :
    safe_realloc b s ptr l 0 = (none, safe_dealloc ptr l) := by
  obtain ⟨m, hm⟩ := Nat.exists_eq_succ_of_ne_zero hl
  simp [safe_realloc, hm]

/-- Witness for C4 at pointer 5 and layout `{size := 8, align := 8}`. -/
theorem claim_C4_witness :
    safe_realloc testBackend 16 5 ⟨8, 8⟩ 0 = (none, safe_dealloc 5 ⟨8, 8⟩) :=
  claim_C4 testBackend 16 5 ⟨8, 8⟩ (by decide)

/-- Claim C5: for every pointer and layout, `safe_dealloc` performs no
backend call when the pointer is null or the layout size is 0. -/
theorem claim_C5 (ptr : Nat) (l : Layout) (h : ptr = 0 ∨ l.size = 0) :
    safe_dealloc ptr l = [] := by
  rcases h with h | h <;> simp [safe_dealloc, h]

/-- Witness for C5 at the null pointer and layout `{size := 8, align := 8}`. -/
theorem claim_C5_witness : safe_dealloc 0 ⟨8, 8⟩ = [] :=
  claim_C5 0 ⟨8, 8⟩ (Or.inl rfl)

/-- Helper: `NonNull::new` yields `none` exactly on the null pointer. -/
theorem nonNullNew_eq_none (p : Nat) : nonNullNew p = none ↔ p = 0 := by
  by_cases h : p = 0 <;> simp [nonNullNew, h]

/-- Helper: a successful `Layout::from_size_align` returns exactly the
layout with the requested fields. -/
theorem from_size_align_some (size align : Nat) (l : Layout)
    (h : Layout.from_size_align size align = some l) :
    l = ⟨size, align⟩ := by
  unfold Layout.from_size_align at h
  split at h
  · exact (Option.some.injEq _ _).mp h.symm |>.symm ▸ rfl
  · exact absurd h (by simp)

/-- Claim C6: `usable_size` returns `none` exactly on the null pointer,
and otherwise the backend answer unmodified (with the single
corresponding backend query in the trace). -/
theorem claim_C6 (b : Backend) (ptr : Nat) :
    usable_size b ptr =
      if ptr = 0 then (none, [])
      else (some (b.sn_rust_usable_size ptr), [BackendCall.usableSize ptr]) := by
  by_cases h : ptr = 0
  · simp [usable_size, ptrIsNull, h]
  · have hb : (ptr == 0) = false := beq_eq_false_iff_ne.mpr h
    simp [usable_size, ptrIsNull, hb, h]

/-- Claim C7: every facade operation is a total function of its inputs,
and exhaustion surfaces only as `none`: for each of `safe_alloc`,
`safe_alloc_zeroed`, and `safe_realloc`, the result is absent exactly
when the request reached the backend (or layout construction) and the
backend returned null — never by any other mechanism. -/
theorem claim_C7 (b : Backend) (s ptr new_size : Nat) (l : Layout) :
    ((safe_alloc b s l).fst = none ↔
      l.size ≠ 0 ∧ b.sn_rust_alloc l.align l.size = 0) ∧
    ((safe_alloc_zeroed b s l).fst = none ↔
      l.size ≠ 0 ∧ b.sn_rust_alloc_zeroed l.align l.size = 0) ∧
    ((safe_realloc b s ptr l new_size).fst = none ↔
      (l.size = 0 ∧ new_size ≠ 0 ∧
        (Layout.from_size_align new_size l.align = none ∨
         b.sn_rust_alloc l.align new_size = 0)) ∨
      (l.size ≠ 0 ∧ new_size = 0) ∨
      (l.size ≠ 0 ∧ new_size ≠ 0 ∧
        b.sn_rust_realloc ptr l.align l.size new_size = 0)) := by
  obtain ⟨ls, la⟩ := l
  refine ⟨?_, ?_, ?_⟩
  · cases ls <;> simp [safe_alloc, nonNullNew_eq_none]
  · cases ls <;> simp [safe_alloc_zeroed, nonNullNew_eq_none]
  · cases ls with
    | zero =>
      cases new_size with
      | zero => simp [safe_realloc]
      | succ ns =>
        rcases h : Layout.from_size_align (ns + 1) la with _ | l2
        · simp [safe_realloc, h]
        · have hl2 : l2 = ⟨ns + 1, la⟩ := from_size_align_some _ _ _ h
          subst hl2
          simp [safe_realloc, h, safe_alloc, nonNullNew_eq_none]
    | succ m =>
      cases new_size with
      | zero => simp [safe_realloc]
      | succ ns => simp [safe_realloc, nonNullNew_eq_none]

/-- Claim C8: each `GlobalAlloc` entry point returns the corresponding
safe operation's result with only null-normalization applied — an absent
result becomes the null pointer, a present result the identical address,
the backend call trace is unchanged — and `dealloc` coincides with
`safe_dealloc`. -/
theorem claim_C8 (b : Backend) (s ptr new_size : Nat) (l : Layout) :
    (SnMalloc.alloc b s l =
      ((match (safe_alloc b s l).fst with
        | none => 0
        | some p => p), (safe_alloc b s l).snd)) ∧
    (SnMalloc.alloc_zeroed b s l =
      ((match (safe_alloc_zeroed b s l).fst with
        | none => 0
        | some p => p), (safe_alloc_zeroed b s l).snd)) ∧
    (SnMalloc.realloc b s ptr l new_size =
      ((match (safe_realloc b s ptr l new_size).fst with
        | none => 0
        | some p => p), (safe_realloc b s ptr l new_size).snd)) ∧
    SnMalloc.dealloc ptr l = safe_dealloc ptr l := by
  refine ⟨?_, ?_, ?_, rfl⟩
  · cases h : (safe_alloc b s l).fst <;> simp [SnMalloc.alloc, h]
  · cases h : (safe_alloc_zeroed b s l).fst <;> simp [SnMalloc.alloc_zeroed, h]
  · cases h : (safe_realloc b s ptr l new_size).fst <;>
      simp [SnMalloc.realloc, h]

/-- Claim C9: `alloc_aligned` and `safe_alloc` are extensionally equal:
they agree on every backend, sentinel, and layout. -/
theorem claim_C9 (b : Backend) (s : Nat) (l : Layout) :
    alloc_aligned b s l = safe_alloc b s l := rfl
